import Mathlib

/-!
Shallow embedding of `src/src/lib.rs` (crate `concurrentstack`): a fixed-capacity
concurrent stack built from per-slot boolean `Lock` flags and a shared reservation
counter. The embedding models the sequential (single-thread) semantics of the
code: every atomic read-modify-write acts on an explicit state, blocking spin
loops are modelled by `Option` (`none` = the call spins forever and never
returns), and out-of-bounds indexing (a Rust panic) also yields `none`/`stuck`.
Machine integers (`usize`) are modelled as `Nat`; the code never subtracts below
zero on the paths it executes because the subtraction is guarded by a zero test.
-/

namespace ConcurrentStack

/-- The source constant `const CAPACITY: usize = 100000`. -/
def CAPACITY : Nat := 100000

/-- The `Lock` struct: a single boolean state (`state: AtomicBool`), modelled as a
plain boolean since each transition is one atomic step. -/
structure Lock where
  state : Bool
  deriving DecidableEq

/-- The constructor `Lock::new(state)`. -/
def Lock.new (state : Bool) : Lock := ⟨state⟩

/-- The operation `Lock::set_true`: spins on `compare_exchange(false, true)` until it
succeeds. Sequentially it succeeds exactly when the state is `false`; on a `true`
state it spins forever, modelled by `none`. -/
def Lock.set_true (l : Lock) : Option Lock :=
  if l.state then none else some ⟨true⟩

/-- The operation `Lock::set_false`: spins on `compare_exchange(true, false)` until it
succeeds. Sequentially it succeeds exactly when the state is `true`; on a `false`
state it spins forever, modelled by `none`. -/
def Lock.set_false (l : Lock) : Option Lock :=
  if l.state then some ⟨false⟩ else none

/-- The operation `Lock::is_true`: performs a single
`compare_exchange(true, false)` and returns `.is_err()` together with the updated
lock state. Note the returned boolean is `true` exactly when the exchange FAILED,
i.e. when the state was `false` beforehand; when the state was `true` the
exchange succeeds (consuming the flag to `false`) and the result is `false`. -/
def Lock.is_true (l : Lock) : Bool × Lock :=
  if l.state then (false, ⟨false⟩) else (true, l)

/-- The operation `Lock::wait_for_true`: spins on `compare_exchange(true, false)` until
it succeeds (consuming the flag). Sequentially it succeeds exactly when the state
is `true`; on a `false` state it spins forever, modelled by `none`. -/
def Lock.wait_for_true (l : Lock) : Option Lock :=
  if l.state then some ⟨false⟩ else none

/-- The `Stack<T>` struct: payload vector `data`, reservation counter `reserved`,
and the two per-slot flag arrays `safe_to_read` and `safe_to_write`. -/
structure Stack (T : Type) where
  data : List T
  reserved : Nat
  safe_to_read : List Lock
  safe_to_write : List Lock
  deriving DecidableEq

/-- The constructor `Stack::new()`: it takes no capacity argument; it fills `data`
with `CAPACITY` default values and creates `CAPACITY` read flags at `false` and
`CAPACITY` write flags at `true`, with the counter at `0`. -/
def Stack.new {T : Type} [Inhabited T] : Stack T :=
  { data := List.replicate CAPACITY default
    reserved := 0
    safe_to_read := List.replicate CAPACITY (Lock.new false)
    safe_to_write := List.replicate CAPACITY (Lock.new true) }

/-- The method `Stack::push`: fetch-add the counter (taking the pre-increment value
as the claimed position), wait for the slot's write flag (consuming it), write the
value, then raise the slot's read flag. `none` models a call that panics on an
out-of-bounds index or spins forever on a flag. -/
def Stack.push {T : Type} (s : Stack T) (value : T) : Option (Stack T) :=
  let position := s.reserved
  let s1 : Stack T := { s with reserved := s.reserved + 1 }
  match s1.safe_to_write[position]? with
  | none => none
  | some w =>
    match w.wait_for_true with
    | none => none
    | some w' =>
      let s2 : Stack T := { s1 with safe_to_write := s1.safe_to_write.set position w' }
      if position < s2.data.length then
        let s3 : Stack T := { s2 with data := s2.data.set position value }
        match s3.safe_to_read[position]? with
        | none => none
        | some r =>
          match r.set_true with
          | none => none
          | some r' => some { s3 with safe_to_read := s3.safe_to_read.set position r' }
      else none

/-- The method `Stack::get_and_clean`: returns `data[index]` (the clearing code in
the source is commented out, so nothing is cleaned). `none` models the panic on an
out-of-bounds index. -/
def Stack.get_and_clean {T : Type} (s : Stack T) (index : Nat) : Option T :=
  s.data[index]?

/-- Outcome of one iteration of `Stack::pop`'s `loop`: `retry` is the `continue`
path carrying the updated state, `done` is a `return`, and `stuck` models a panic
(out-of-bounds index) or an unbounded spin inside the iteration. -/
inductive PopIterResult (T : Type) where
  | retry (s : Stack T)
  | done (value : Option T) (s : Stack T)
  | stuck
  deriving DecidableEq

/-- The tail of a `Stack::pop` iteration from the compare-and-swap on: CAS the
counter from `current_position` down to `read_position`; on success read the
payload (`get_and_clean`) and raise the slot's write flag, returning the value; on
failure call `set_false` on the slot's read flag and `continue`. The CAS succeeds
exactly when the counter still equals `current_position`. -/
def Stack.popCasPhase {T : Type} (current_position read_position : Nat) (s : Stack T) :
    PopIterResult T :=
  if s.reserved = current_position then
    let s1 : Stack T := { s with reserved := read_position }
    match s1.get_and_clean read_position with
    | none => .stuck
    | some value =>
      match s1.safe_to_write[read_position]? with
      | none => .stuck
      | some w =>
        match w.set_true with
        | none => .stuck
        | some w' =>
          .done (some value) { s1 with safe_to_write := s1.safe_to_write.set read_position w' }
  else
    match s.safe_to_read[read_position]? with
    | none => .stuck
    | some l =>
      match l.set_false with
      | none => .stuck
      | some l' => .retry { s with safe_to_read := s.safe_to_read.set read_position l' }

/-- A `Stack::pop` iteration after the initial counter load returned the nonzero
value `current_position`: compute `read_position = current_position - 1`, run
`is_true` on that slot's read flag (which mutates the flag), `continue` when the
returned boolean is `false`, and otherwise fall through to the counter CAS. -/
def Stack.popIterAfterRead {T : Type} (current_position : Nat) (s : Stack T) :
    PopIterResult T :=
  let read_position := current_position - 1
  match s.safe_to_read[read_position]? with
  | none => .stuck
  | some l =>
    let res := l.is_true
    let s1 : Stack T := { s with safe_to_read := s.safe_to_read.set read_position res.2 }
    if !res.1 then .retry s1
    else Stack.popCasPhase current_position read_position s1

/-- One full iteration of `Stack::pop`'s `loop`: load the counter, return `None`
if it is zero, otherwise continue with `popIterAfterRead`. -/
def Stack.popIter {T : Type} (s : Stack T) : PopIterResult T :=
  if s.reserved = 0 then .done none s
  else Stack.popIterAfterRead s.reserved s

/-- The method `Stack::pop`: iterate `popIter` under a fuel bound (the source loop
is unbounded; `none` means the call did not return within `fuel` iterations or got
stuck spinning/panicking). -/
def Stack.popLoop {T : Type} (fuel : Nat) (s : Stack T) : Option (Option T × Stack T) :=
  match fuel with
  | 0 => none
  | fuel' + 1 =>
    match Stack.popIter s with
    | .retry s' => Stack.popLoop fuel' s'
    | .done v s' => some (v, s')
    | .stuck => none

/-- Sequential driver: push each value of `vs` in order (left to right). -/
def Stack.pushAll {T : Type} (s : Stack T) : List T → Option (Stack T)
  | [] => some s
  | v :: vs =>
    match s.push v with
    | none => none
    | some s' => Stack.pushAll s' vs

/-- Sequential driver: perform `n` pops in order, each with loop fuel `fuel`,
collecting the optional results. -/
def Stack.popN {T : Type} (fuel : Nat) (s : Stack T) : Nat → Option (List (Option T) × Stack T)
  | 0 => some ([], s)
  | n + 1 =>
    match Stack.popLoop fuel s with
    | none => none
    | some (v, s') =>
      match Stack.popN fuel s' n with
      | none => none
      | some (l, s'') => some (v :: l, s'')

/-- Invariant of states reachable by single-threaded, capacity-respecting use:
`vs` are the currently stacked values (bottom first), the counter equals the
number of stacked values, all three arrays have length `CAPACITY`, `data` agrees
with `vs` below the counter, read flags are `true` exactly below the counter, and
write flags are `true` exactly from the counter up. -/
def isSeq {T : Type} (s : Stack T) (vs : List T) : Prop :=
  vs.length ≤ CAPACITY ∧
  s.reserved = vs.length ∧
  s.data.length = CAPACITY ∧
  s.safe_to_read.length = CAPACITY ∧
  s.safe_to_write.length = CAPACITY ∧
  (∀ i, i < vs.length → s.data[i]? = vs[i]?) ∧
  (∀ i, i < CAPACITY → s.safe_to_read[i]? = some (Lock.new (decide (i < vs.length)))) ∧
  (∀ i, i < CAPACITY → s.safe_to_write[i]? = some (Lock.new (!decide (i < vs.length))))

/-- The fresh stack satisfies the sequential invariant with no stacked values. -/
theorem isSeq_new {T : Type} [Inhabited T] : isSeq (Stack.new : Stack T) [] := by
  refine ⟨by simp, by simp [Stack.new], by simp [Stack.new], by simp [Stack.new],
    by simp [Stack.new], ?_, ?_, ?_⟩
  · intro i hi
    simp at hi
  · intro i hi
    simp [Stack.new, List.getElem?_replicate, hi]
  · intro i hi
    simp [Stack.new, List.getElem?_replicate, hi]

/-- Evaluation of `Stack.push` when the claimed slot's write flag is `true`, the
slot is in bounds, and its read flag is `false`. -/
theorem push_eq {T : Type} (s : Stack T) (v : T)
    (hw : s.safe_to_write[s.reserved]? = some (Lock.new true))
    (hd : s.reserved < s.data.length)
    (hr : s.safe_to_read[s.reserved]? = some (Lock.new false)) :
    Stack.push s v = some
      { data := s.data.set s.reserved v
        reserved := s.reserved + 1
        safe_to_read := s.safe_to_read.set s.reserved (Lock.new true)
        safe_to_write := s.safe_to_write.set s.reserved (Lock.new false) } := by
  simp [Stack.push, Lock.new, Lock.wait_for_true, Lock.set_true, hw, hr, hd]

/-- Evaluation of `Stack.popIter` on an empty counter. -/
theorem popIter_none {T : Type} (s : Stack T) (h : s.reserved = 0) :
    Stack.popIter s = .done none s := by
  simp [Stack.popIter, h]

/-- Evaluation of `Stack.popIter` when the counter is nonzero and the candidate
slot's read flag is `true`: the `is_true` exchange succeeds (consuming the flag),
so `is_true` returns `false` and the iteration retries. -/
theorem popIter_retry {T : Type} (s : Stack T) (h0 : s.reserved ≠ 0)
    (hr : s.safe_to_read[s.reserved - 1]? = some (Lock.new true)) :
    Stack.popIter s =
      .retry { s with safe_to_read := s.safe_to_read.set (s.reserved - 1) (Lock.new false) } := by
  simp [Stack.popIter, Stack.popIterAfterRead, h0, hr, Lock.is_true, Lock.new]

/-- Evaluation of `Stack.popIter` when the counter is nonzero and the candidate
slot's read flag is `false`: the `is_true` exchange fails, so `is_true` returns
`true` and the iteration proceeds to the CAS, which succeeds sequentially. -/
theorem popIter_success {T : Type} (s : Stack T) (v : T) (h0 : s.reserved ≠ 0)
    (hr : s.safe_to_read[s.reserved - 1]? = some (Lock.new false))
    (hd : s.data[s.reserved - 1]? = some v)
    (hw : s.safe_to_write[s.reserved - 1]? = some (Lock.new false)) :
    Stack.popIter s = .done (some v)
      { data := s.data
        reserved := s.reserved - 1
        safe_to_read := s.safe_to_read.set (s.reserved - 1) (Lock.new false)
        safe_to_write := s.safe_to_write.set (s.reserved - 1) (Lock.new true) } := by
  simp [Stack.popIter, Stack.popIterAfterRead, Stack.popCasPhase, Stack.get_and_clean,
    h0, hr, hd, hw, Lock.is_true, Lock.set_true, Lock.new]

/-- Unfolding one `done` iteration of the pop loop. -/
theorem popLoop_done {T : Type} (f : Nat) (s : Stack T) (v : Option T) (s' : Stack T)
    (h : Stack.popIter s = .done v s') : Stack.popLoop (f + 1) s = some (v, s') := by
  simp [Stack.popLoop, h]

/-- Unfolding one `retry` iteration of the pop loop. -/
theorem popLoop_retry_step {T : Type} (f : Nat) (s s' : Stack T)
    (h : Stack.popIter s = .retry s') : Stack.popLoop (f + 1) s = Stack.popLoop f s' := by
  simp [Stack.popLoop, h]

/-- Pushing onto a sequential-invariant state below capacity succeeds and
preserves the invariant, appending the value on top. -/
theorem push_isSeq {T : Type} {s : Stack T} {vs : List T} (h : isSeq s vs)
    (hcap : vs.length < CAPACITY) (v : T) :
    ∃ s', Stack.push s v = some s' ∧ isSeq s' (vs ++ [v]) := by
  obtain ⟨h1, h2, h3, h4, h5, h6, h7, h8⟩ := h
  have hw : s.safe_to_write[s.reserved]? = some (Lock.new true) := by
    rw [h2]
    have := h8 vs.length (by omega)
    simpa using this
  have hr : s.safe_to_read[s.reserved]? = some (Lock.new false) := by
    rw [h2]
    have := h7 vs.length (by omega)
    simpa using this
  have hd : s.reserved < s.data.length := by
    rw [h2, h3]
    exact hcap
  refine ⟨_, push_eq s v hw hd hr, ?_, by simp [h2], by simp [h3], by simp [h4],
    by simp [h5], ?_, ?_, ?_⟩
  · simpa using hcap
  · intro i hi
    simp only [List.length_append, List.length_singleton] at hi
    rcases Nat.lt_or_ge i vs.length with hlt | hge
    · have hne : s.reserved ≠ i := by omega
      simp only [List.getElem?_set_ne hne]
      rw [h6 i hlt, List.getElem?_append_left hlt]
    · have hik : i = vs.length := by omega
      subst hik
      rw [← h2, List.getElem?_set_self hd, h2, List.getElem?_concat_length]
  · intro i hi
    have hdec : decide (i < (vs ++ [v]).length) = decide (i < vs.length + 1) := by
      simp
    rcases Nat.lt_or_ge (vs.length) i with hgt | hle
    · have hne : s.reserved ≠ i := by omega
      rw [List.getElem?_set_ne hne, h7 i hi, hdec]
      have : decide (i < vs.length + 1) = decide (i < vs.length) :=
        decide_eq_decide.mpr (by omega)
      rw [this]
    · rcases Nat.lt_or_ge i vs.length with hlt | hge
      · have hne : s.reserved ≠ i := by omega
        rw [List.getElem?_set_ne hne, h7 i hi, hdec]
        have : decide (i < vs.length + 1) = decide (i < vs.length) :=
          decide_eq_decide.mpr (by omega)
        rw [this]
      · have hik : i = vs.length := by omega
        subst hik
        have hlen : s.reserved < s.safe_to_read.length := by
          rw [h2, h4]
          exact hcap
        rw [← h2, List.getElem?_set_self hlen, h2, hdec]
        have : decide (vs.length < vs.length + 1) = true := by simp
        rw [this]
  · intro i hi
    have hdec : decide (i < (vs ++ [v]).length) = decide (i < vs.length + 1) := by
      simp
    rcases Nat.lt_or_ge (vs.length) i with hgt | hle
    · have hne : s.reserved ≠ i := by omega
      rw [List.getElem?_set_ne hne, h8 i hi, hdec]
      have : decide (i < vs.length + 1) = decide (i < vs.length) :=
        decide_eq_decide.mpr (by omega)
      rw [this]
    · rcases Nat.lt_or_ge i vs.length with hlt | hge
      · have hne : s.reserved ≠ i := by omega
        rw [List.getElem?_set_ne hne, h8 i hi, hdec]
        have : decide (i < vs.length + 1) = decide (i < vs.length) :=
          decide_eq_decide.mpr (by omega)
        rw [this]
      · have hik : i = vs.length := by omega
        subst hik
        have hlen : s.reserved < s.safe_to_write.length := by
          rw [h2, h5]
          exact hcap
        rw [← h2, List.getElem?_set_self hlen, h2, hdec]
        have : decide (vs.length < vs.length + 1) = true := by simp
        rw [this]
        simp

/-- Popping from a sequential-invariant state with at least one stacked value
takes exactly two loop iterations (the first consumes the read flag and retries,
the second proceeds), returns the top value, and preserves the invariant. -/
theorem pop_isSeq {T : Type} {s : Stack T} {vs : List T} {v : T}
    (h : isSeq s (vs ++ [v])) (f : Nat) :
    ∃ s', Stack.popLoop (f + 2) s = some (some v, s') ∧ isSeq s' vs := by
  obtain ⟨h1, h2, h3, h4, h5, h6, h7, h8⟩ := h
  have hres : s.reserved = vs.length + 1 := by simpa using h2
  have hk : vs.length < CAPACITY := by
    simp only [List.length_append, List.length_singleton] at h1
    omega
  have h0 : s.reserved ≠ 0 := by omega
  have hrp : s.reserved - 1 = vs.length := by omega
  have hrtrue : s.safe_to_read[s.reserved - 1]? = some (Lock.new true) := by
    rw [hrp]
    have := h7 vs.length hk
    simpa using this
  have step1 := popIter_retry s h0 hrtrue
  have hlenr : s.reserved - 1 < s.safe_to_read.length := by
    rw [h4, hrp]
    exact hk
  have hfalse : (s.safe_to_read.set (s.reserved - 1) (Lock.new false))[s.reserved - 1]? =
      some (Lock.new false) := List.getElem?_set_self hlenr
  have hdata : s.data[s.reserved - 1]? = some v := by
    rw [hrp]
    have := h6 vs.length (by simp)
    rw [this, List.getElem?_concat_length]
  have hwfalse : s.safe_to_write[s.reserved - 1]? = some (Lock.new false) := by
    rw [hrp]
    have := h8 vs.length hk
    simpa using this
  have step2 := popIter_success
      (s := { s with safe_to_read := s.safe_to_read.set (s.reserved - 1) (Lock.new false) })
      (v := v) h0 hfalse hdata hwfalse
  refine ⟨{ data := s.data
            reserved := s.reserved - 1
            safe_to_read :=
              (s.safe_to_read.set (s.reserved - 1) (Lock.new false)).set
                (s.reserved - 1) (Lock.new false)
            safe_to_write := s.safe_to_write.set (s.reserved - 1) (Lock.new true) },
    ?_, ?_, hrp, h3, by simp [h4], by simp [h5], ?_, ?_, ?_⟩
  · rw [popLoop_retry_step (f + 1) s _ step1, popLoop_done f _ _ _ step2]
  · omega
  · intro i hi
    have := h6 i (by simp; omega)
    rw [this, List.getElem?_append_left hi]
  · intro i hi
    have hdd : decide (i < (vs ++ [v]).length) = decide (i < vs.length + 1) := by simp
    rcases Nat.decEq i (s.reserved - 1) with hne | heq
    · rw [List.getElem?_set_ne (Ne.symm hne), List.getElem?_set_ne (Ne.symm hne), h7 i hi, hdd]
      have : decide (i < vs.length + 1) = decide (i < vs.length) :=
        decide_eq_decide.mpr (by omega)
      rw [this]
    · subst heq
      have hlen2 : s.reserved - 1 < (s.safe_to_read.set (s.reserved - 1) (Lock.new false)).length := by
        simpa using hlenr
      rw [List.getElem?_set_self hlen2, hrp]
      have : decide (vs.length < vs.length) = false := by simp
      rw [this]
  · intro i hi
    have hdd : decide (i < (vs ++ [v]).length) = decide (i < vs.length + 1) := by simp
    rcases Nat.decEq i (s.reserved - 1) with hne | heq
    · rw [List.getElem?_set_ne (Ne.symm hne), h8 i hi, hdd]
      have : decide (i < vs.length + 1) = decide (i < vs.length) :=
        decide_eq_decide.mpr (by omega)
      rw [this]
    · subst heq
      have hlen3 : s.reserved - 1 < s.safe_to_write.length := by
        rw [h5, hrp]
        exact hk
      rw [List.getElem?_set_self hlen3, hrp]
      have : decide (vs.length < vs.length) = false := by simp
      rw [this]
      simp

/-- A pop on an empty counter returns `none` within any positive fuel. -/
theorem popLoop_empty {T : Type} (s : Stack T) (h : s.reserved = 0) (f : Nat) :
    Stack.popLoop (f + 1) s = some (none, s) :=
  popLoop_done f s none s (popIter_none s h)

/-- Pushing a whole list of values from a sequential-invariant state within
capacity succeeds and appends the values. -/
theorem pushAll_isSeq {T : Type} (vs : List T) :
    ∀ (s : Stack T) (ws : List T), isSeq s ws → ws.length + vs.length ≤ CAPACITY →
    ∃ s', Stack.pushAll s vs = some s' ∧ isSeq s' (ws ++ vs) := by
  induction vs with
  | nil =>
    intro s ws h _
    exact ⟨s, rfl, by simpa using h⟩
  | cons v vs ih =>
    intro s ws h hcap
    simp only [List.length_cons] at hcap
    obtain ⟨s1, hpush, hs1⟩ := push_isSeq h (by omega) v
    obtain ⟨s', hall, hs'⟩ := ih s1 (ws ++ [v]) hs1 (by simp; omega)
    refine ⟨s', ?_, by simpa using hs'⟩
    simp [Stack.pushAll, hpush, hall]

/-- Unfolding one successful pop of the `popN` driver. -/
theorem popN_succ {T : Type} (fuel n : Nat) (s : Stack T) (v : Option T) (s1 : Stack T)
    (h : Stack.popLoop fuel s = some (v, s1)) (l : List (Option T)) (s'' : Stack T)
    (h2 : Stack.popN fuel s1 n = some (l, s'')) :
    Stack.popN fuel s (n + 1) = some (v :: l, s'') := by
  simp only [Stack.popN, h, h2]

/-- Popping `k + 1` times from a sequential-invariant state holding `k` values
returns the values top-down followed by `none`, ending in an empty-invariant
state. -/
theorem popN_isSeq {T : Type} (vs : List T) :
    ∀ (s : Stack T), isSeq s vs → ∀ f,
    ∃ s', Stack.popN (f + 2) s (vs.length + 1) = some (vs.reverse.map some ++ [none], s') ∧
      isSeq s' [] := by
  induction vs using List.reverseRecOn with
  | nil =>
    intro s h f
    have h0 : s.reserved = 0 := h.2.1
    refine ⟨s, ?_, h⟩
    have hpop : Stack.popLoop (f + 2) s = some (none, s) := popLoop_empty s h0 (f + 1)
    simp [Stack.popN, hpop]
  | append_singleton vs v ih =>
    intro s h f
    obtain ⟨s1, hpop, hs1⟩ := pop_isSeq h f
    obtain ⟨s', hrest, hs'⟩ := ih s1 hs1 f
    refine ⟨s', ?_, hs'⟩
    have hlen : (vs ++ [v]).length + 1 = (vs.length + 1) + 1 := by simp
    rw [hlen, popN_succ (f + 2) (vs.length + 1) s (some v) s1 hpop _ s' hrest]
    simp [List.reverse_concat]

/-- C1 counterexample: on a flag that is `true` beforehand, `is_true` (the
`try_consume` operation used by pop) returns `false`, not `true` as the claim
states, even though the true→false transition itself succeeded. -/
theorem c1_try_consume_counterexample :
    Lock.is_true (Lock.new true) = (false, Lock.new false) := rfl

/-- C1 (amended): `is_true` performs a single atomic true→false
compare-exchange, after which the flag is always `false`; its boolean result is
the NEGATION of "the flag was true beforehand": it returns `false` exactly when
the flag was `true` beforehand (the attempt obtained the flag) and `true` when
the flag was already `false`. -/
theorem c1_try_consume_polarity (l : Lock) :
    Lock.is_true l = (!l.state, Lock.new false) := by
  cases l with
  | mk b => cases b <;> rfl

/-- C2 counterexample: with the counter at 1 and slot 0's read flag `true`, the
consume attempt obtains the flag (it was `true` and is consumed to `false`),
yet pop RESTARTS the loop instead of proceeding to the counter
compare-and-swap. -/
theorem c2_retry_polarity_counterexample :
    (Lock.new true).state = true ∧
    Stack.popIter (⟨[7], 1, [Lock.new true], [Lock.new false]⟩ : Stack Nat) =
      .retry ⟨[7], 1, [Lock.new false], [Lock.new false]⟩ := ⟨rfl, rfl⟩

/-- C2 (amended): after computing `read_position = current_position - 1`, pop
attempts to consume that slot's read flag via `is_true`; it restarts the loop
exactly when the attempt OBTAINED the flag (the flag was observed `true`, and it
is consumed to `false` as a side effect), and proceeds to the counter
compare-and-swap phase exactly when the attempt did not obtain it (the flag was
observed `false`). -/
theorem c2_retry_polarity (T : Type) (s : Stack T) (l : Lock)
    (h0 : s.reserved ≠ 0)
    (hl : s.safe_to_read[s.reserved - 1]? = some l) :
    Stack.popIter s =
      if l.state then
        .retry { s with safe_to_read := s.safe_to_read.set (s.reserved - 1) (Lock.new false) }
      else
        Stack.popCasPhase s.reserved (s.reserved - 1)
          { s with safe_to_read := s.safe_to_read.set (s.reserved - 1) (Lock.new false) } := by
  cases l with
  | mk b =>
    cases b <;> simp [Stack.popIter, Stack.popIterAfterRead, h0, hl, Lock.is_true, Lock.new]

/-- C2 witness: the amended theorem applied at a concrete one-slot stack whose
read flag is set. -/
theorem c2_retry_polarity_witness :
    Stack.popIter (⟨[7], 1, [Lock.new true], [Lock.new false]⟩ : Stack Nat) =
      .retry ⟨[7], 1, [Lock.new false], [Lock.new false]⟩ := by
  have h := c2_retry_polarity Nat ⟨[7], 1, [Lock.new true], [Lock.new false]⟩
      (Lock.new true) (by decide) rfl
  simpa [Lock.new] using h

/-- C4 counterexample: a failed counter compare-and-swap (counter at 3, observed
value 2, candidate slot 1) does NOT restore the candidate slot's read flag to
`true`: with slot 1's read flag at `true`, the failure branch runs `set_false`
and leaves the flag `false`. -/
theorem c4_cas_failure_counterexample :
    Stack.popCasPhase 2 1
        (⟨[7, 8, 9], 3, [Lock.new true, Lock.new true, Lock.new true],
          [Lock.new false, Lock.new false, Lock.new false]⟩ : Stack Nat) =
      .retry ⟨[7, 8, 9], 3, [Lock.new true, Lock.new false, Lock.new true],
        [Lock.new false, Lock.new false, Lock.new false]⟩ := rfl

/-- C4 (amended): when pop's counter compare-and-swap fails, the code runs the
blocking `set_false` on the candidate slot's read flag before restarting: if the
flag is observed `true` it is set to `false` (the opposite of restoring the
ready signal), and if the flag is already `false` the call spins indefinitely
(`stuck`). -/
theorem c4_cas_failure_sets_false (T : Type) (s : Stack T) (cp rp : Nat) (l : Lock)
    (hne : s.reserved ≠ cp)
    (hl : s.safe_to_read[rp]? = some l) :
    Stack.popCasPhase cp rp s =
      if l.state then
        .retry { s with safe_to_read := s.safe_to_read.set rp (Lock.new false) }
      else .stuck := by
  cases l with
  | mk b => cases b <;> simp [Stack.popCasPhase, hne, hl, Lock.set_false, Lock.new]

/-- C4 witness: the amended theorem applied at a concrete stack where the failed
compare-and-swap finds the candidate's read flag already `false` and spins. -/
theorem c4_cas_failure_witness :
    Stack.popCasPhase 2 0 (⟨[7], 3, [Lock.new false], [Lock.new true]⟩ : Stack Nat) =
      .stuck := by
  have h := c4_cas_failure_sets_false Nat ⟨[7], 3, [Lock.new false], [Lock.new true]⟩ 2 0
      (Lock.new false) (by decide) rfl
  simpa [Lock.new] using h

/-- C3: for any nonempty value sequence of length at most the capacity, pushing
all values single-threaded onto a fresh stack and then popping `length + 1`
times (each pop with any loop fuel of at least 2) returns the values in reverse
push order followed by the empty result `none`. -/
theorem c3_sequential_lifo (T : Type) [Inhabited T] (vs : List T)
    (_hne : vs ≠ []) (hcap : vs.length ≤ CAPACITY) (f : Nat) :
    (Stack.pushAll (Stack.new : Stack T) vs).bind
        (fun s => (Stack.popN (f + 2) s (vs.length + 1)).map Prod.fst) =
      some (vs.reverse.map some ++ [none]) := by
  obtain ⟨s', hall, hs'⟩ := pushAll_isSeq vs Stack.new [] isSeq_new (by simpa using hcap)
  obtain ⟨s'', hpop, _⟩ := popN_isSeq vs s' (by simpa using hs') f
  rw [hall]
  simp [hpop]

/-- C3 witness: pushing `[5]` on a fresh stack then popping twice yields
`some 5` and then `none`. -/
theorem c3_sequential_lifo_witness :
    (Stack.pushAll (Stack.new : Stack Nat) [5]).bind
        (fun s => (Stack.popN 2 s 2).map Prod.fst) = some [some 5, none] := by
  have h := c3_sequential_lifo Nat [5] (by decide) (by decide) 0
  simpa using h

/-- C5: in any sequential-invariant state (reachable by capacity-respecting
single-threaded use, with the counter in `[0, CAPACITY]`), push completes
normally whenever fewer than `CAPACITY` values are stacked, and pop always
completes normally: every index into `data`, `safe_to_read` and `safe_to_write`
is in bounds (an out-of-bounds access would yield `none`), and the subtraction
`counter - 1` is only performed under the counter-nonzero guard by the
structure of `popIter`. -/
theorem c5_no_abort (T : Type) (s : Stack T) (vs : List T) (v : T) (f : Nat)
    (h : isSeq s vs) :
    (vs.length < CAPACITY → (Stack.push s v).isSome = true) ∧
    (Stack.popLoop (f + 2) s).isSome = true := by
  constructor
  · intro hcap
    obtain ⟨s', hp, _⟩ := push_isSeq h hcap v
    simp [hp]
  · rcases vs.eq_nil_or_concat' with rfl | ⟨ws, w, rfl⟩
    · simp [popLoop_empty s h.2.1 (f + 1)]
    · obtain ⟨s', hp, _⟩ := pop_isSeq h f
      simp [hp]

/-- C5 witness: on the fresh stack, a push and a pop both complete normally. -/
theorem c5_no_abort_witness :
    ((Stack.push (Stack.new : Stack Nat) 5).isSome = true) ∧
    (Stack.popLoop 2 (Stack.new : Stack Nat)).isSome = true := by
  have h := c5_no_abort Nat Stack.new [] 5 0 isSeq_new
  exact ⟨h.1 (by decide), h.2⟩

/-- C6: a fresh stack has counter 0, `CAPACITY` default-initialized data cells,
every slot's read flag `false` and write flag `true`, and popping it returns
the empty result `none` with the state unchanged. -/
theorem c6_fresh_stack (T : Type) [Inhabited T] (f : Nat) :
    (Stack.new : Stack T).reserved = 0 ∧
    (Stack.new : Stack T).data = List.replicate CAPACITY default ∧
    (Stack.new : Stack T).safe_to_read = List.replicate CAPACITY (Lock.new false) ∧
    (Stack.new : Stack T).safe_to_write = List.replicate CAPACITY (Lock.new true) ∧
    Stack.popLoop (f + 1) (Stack.new : Stack T) = some (none, Stack.new) :=
  ⟨rfl, rfl, rfl, rfl, popLoop_empty _ rfl f⟩

/-- C7: the counter is changed only by push's single fetch-add (+1) and by a pop
iteration that wins the compare-and-swap and returns a value (−1); a pop
iteration returning the empty result leaves the whole state untouched, and a
retrying pop iteration (whether from the read-flag attempt or from the failed
compare-and-swap branch) leaves the counter unchanged. -/
theorem c7_counter_mutation (T : Type) (s : Stack T) (v : T) :
    (∀ s', Stack.push s v = some s' → s'.reserved = s.reserved + 1) ∧
    (∀ s', Stack.popIter s = .retry s' → s'.reserved = s.reserved) ∧
    (∀ s', Stack.popIter s = .done none s' → s' = s) ∧
    (∀ w s', Stack.popIter s = .done (some w) s' → s'.reserved + 1 = s.reserved) := by
  refine ⟨?_, ?_, ?_, ?_⟩
  · intro s' h
    simp only [Stack.push] at h
    iterate 9 (all_goals try split at h)
    all_goals try simp_all
    all_goals (subst h; rfl)
  · intro s' h
    simp only [Stack.popIter, Stack.popIterAfterRead, Stack.popCasPhase,
      Stack.get_and_clean] at h
    iterate 9 (all_goals try split at h)
    all_goals try simp_all
    all_goals (subst h; rfl)
  · intro s' h
    simp only [Stack.popIter, Stack.popIterAfterRead, Stack.popCasPhase,
      Stack.get_and_clean] at h
    iterate 9 (all_goals try split at h)
    all_goals try simp_all
  · intro w s' h
    simp only [Stack.popIter, Stack.popIterAfterRead, Stack.popCasPhase,
      Stack.get_and_clean] at h
    iterate 9 (all_goals try split at h)
    all_goals try simp_all
    all_goals (obtain ⟨-, h2⟩ := h; subst h2)
    all_goals (show s.reserved - 1 + 1 = s.reserved; omega)

/-- C7 witness: the push conjunct applied at a concrete one-slot stack. -/
theorem c7_counter_mutation_witness :
    (⟨[5], 1, [Lock.new true], [Lock.new false]⟩ : Stack Nat).reserved =
      (⟨[0], 0, [Lock.new false], [Lock.new true]⟩ : Stack Nat).reserved + 1 :=
  (c7_counter_mutation Nat ⟨[0], 0, [Lock.new false], [Lock.new true]⟩ 5).1
    ⟨[5], 1, [Lock.new true], [Lock.new false]⟩ rfl

/-- C9: whenever the counter is zero, pop immediately returns the empty result
`none` and the returned state is exactly the input state: counter, both flag
arrays, and the data array are all unchanged. -/
theorem c9_empty_pop_no_change (T : Type) (s : Stack T) (h : s.reserved = 0) (f : Nat) :
    Stack.popLoop (f + 1) s = some (none, s) :=
  popLoop_empty s h f

/-- C9 witness: the theorem applied at a concrete zero-counter stack with
nontrivial flag contents. -/
theorem c9_empty_pop_no_change_witness :
    Stack.popLoop 1 (⟨[7], 0, [Lock.new true], [Lock.new false]⟩ : Stack Nat) =
      some (none, ⟨[7], 0, [Lock.new true], [Lock.new false]⟩) :=
  c9_empty_pop_no_change Nat ⟨[7], 0, [Lock.new true], [Lock.new false]⟩ rfl 0

/-- C10: the constructor takes no capacity argument; `CAPACITY` is the
compile-time constant 100000 and every constructed stack's data array and both
flag arrays have length exactly 100000. -/
theorem c10_fixed_capacity (T : Type) [Inhabited T] :
    CAPACITY = 100000 ∧
    (Stack.new : Stack T).data.length = 100000 ∧
    (Stack.new : Stack T).safe_to_read.length = 100000 ∧
    (Stack.new : Stack T).safe_to_write.length = 100000 := by
  refine ⟨rfl, ?_, ?_, ?_⟩ <;> simp only [Stack.new, List.length_replicate] <;> rfl

end ConcurrentStack
